import Mathlib

/-!
Verification of the authenticated configuration-retrieval boundary of the
azure-appconfig-demo backend (`app.js`): the login/session contract, the
authorization gate (`authenticateToken`), and the configuration-fetch
handlers.  The Express handlers are shallowly embedded as pure Lean
functions; each handler that talks to the external stores additionally
returns the ordered trace of external calls it performed, so that
"no upstream call on auth failure" and "secret resolved before any
settings lookup" become statements about that trace.
-/

namespace AppConfigDemo

/-- The mock user database record (`users` fixture in `app.js`):
`{id, username, password (bcrypt hash), name}`. -/
structure User where
  id : Nat
  username : String
  password : String
  name : String
deriving DecidableEq

/-- The single fixture user from `app.js` lines 34-41.
The stored string is the bcrypt hash of `password123`. -/
def demoUser : User :=
  { id := 1
  , username := "demo@ltimindtree.com"
  , password := "$2b$10$rOzWbkQ9p5Fy8.QqZ6m7CeHPFZGVN1wR8PjHgF5nC2QxGkY7mKfO2"
  , name := "Demo User" }

/-- The mock user database: a single fixture user. -/
def users : List User := [demoUser]

/-- Claims carried by a session token.  Mirrors the object passed to
`jwt.sign` (`{id, username, name}`) plus the `iat`/`exp` fields the
jsonwebtoken library adds (`expiresIn: '24h'` means `exp = iat + 86400`
seconds). -/
structure JwtPayload where
  id : Nat
  username : String
  name : String
  iat : Nat
  exp : Nat
deriving DecidableEq

/-- Modelled from the jsonwebtoken library semantics: a signed token is its
payload together with the key it was signed with (signature validity against
a key is modelled as equality with that key). -/
structure Jwt where
  payload : JwtPayload
  signedWith : String
deriving DecidableEq

/-- Embedding of `jwt.sign({id, username, name}, JWT_SECRET, expiresIn 24h)`
at clock time `now` (seconds): the library sets `iat = now` and
`exp = now + 86400`. -/
def jwtSign (id : Nat) (username name : String) (key : String) (now : Nat) : Jwt :=
  { payload := { id := id, username := username, name := name, iat := now, exp := now + 86400 }
  , signedWith := key }

/-- A token string presented by a client: either not a well-formed signed
token at all, or a structurally valid token signed with some key. -/
inductive Token where
  | malformed (raw : String)
  | valid (j : Jwt)
deriving DecidableEq

/-- Embedding of `jwt.verify(token, key)` evaluated at clock time `now`
(seconds).  The jsonwebtoken library reports `TokenExpiredError` as soon as
the clock reaches `exp` (i.e. the token is live exactly while `now < exp`),
and a signature error when the key does not match; both surface as the `err`
callback argument, modelled here as `none`. -/
def jwtVerify (t : Token) (key : String) (now : Nat) : Option JwtPayload :=
  match t with
  | .malformed _ => none
  | .valid j => if j.signedWith = key ∧ now < j.payload.exp then some j.payload else none

/-- The `Authorization` header of a request, after the
`authHeader && authHeader.split(' ')[1]` extraction in `authenticateToken`:
either no token could be extracted (header absent or lacking a second
space-separated part), or a bearer token was extracted. -/
inductive AuthHeader where
  | missing
  | bearer (t : Token)
deriving DecidableEq

/-- A configuration entry as returned by the settings store
(`client.getConfigurationSetting`): key, value and modification timestamp. -/
structure ConfigurationSetting where
  key : String
  value : String
  lastModified : String
deriving DecidableEq

/-- The two external collaborators, as oracles: the secrets store
(`secretClient.getSecret`) and the settings store
(`client.getConfigurationSetting`).  `Except.error` models the SDK call
throwing (store unreachable, entry absent, ...). -/
structure Env where
  secrets : String → Except String String
  settings : String → Except String ConfigurationSetting

/-- One external call performed by a handler. -/
inductive ExtCall where
  | getSecret (name : String)
  | getSetting (key : String)
deriving DecidableEq

/-- The name of the Key Vault secret holding the App Configuration
connection string. -/
def connStrName : String := "AppConfigConnectionString"

/-- A JSON error body.  `success` is `none` when the handler's error object
has no `success` field (the auth middleware and login errors), `details` is
`none` when no `details` field is present. -/
structure ErrorBody where
  success : Option Bool
  error : String
  details : Option String
deriving DecidableEq

/-- The response bodies the embedded handlers can produce.  `rootOk` keeps
the dynamic content interpolated into the legacy HTML page of `GET /`
(banner text, banner color, and whether the page shows the new-checkout
feature as enabled, i.e. `value === "true"`); the surrounding static markup
is not modelled.  `rootErr` is the `GET /` error page with the interpolated
`error.message`. -/
inductive RespBody where
  | loginOk (token : Jwt) (id : Nat) (username name : String)
  | profileOk (user : JwtPayload)
  | configOk (text color : String) (newCheckout : Bool)
  | keyOk (key value lastModified : String)
  | rootOk (text color : String) (newCheckout : Bool)
  | rootErr (message : String)
  | err (e : ErrorBody)
deriving DecidableEq

/-- An HTTP response: status code and body. -/
structure Response where
  status : Nat
  body : RespBody
deriving DecidableEq

/-- Embedding of the `authenticateToken` middleware (`app.js` lines 55-70):
401 `Access token required` when no token could be extracted, 403
`Invalid or expired token` when `jwt.verify` fails, otherwise the request
proceeds to the wrapped route handler with `req.user` set to the verified
payload. -/
def authenticateToken (jwtSecret : String) (now : Nat) (h : AuthHeader)
    (route : JwtPayload → Response × List ExtCall) : Response × List ExtCall :=
  match h with
  | .missing => (⟨401, .err ⟨none, "Access token required", none⟩⟩, [])
  | .bearer t =>
    match jwtVerify t jwtSecret now with
    | none => (⟨403, .err ⟨none, "Invalid or expired token", none⟩⟩, [])
    | some u => route u

/-- The outcome of `authenticateToken`'s token check on a header: `some u`
exactly when the wrapped route handler would run with `req.user = u`. -/
def verifyHeader (jwtSecret : String) (now : Nat) : AuthHeader → Option JwtPayload
  | .missing => none
  | .bearer t => jwtVerify t jwtSecret now

/-- Embedding of the `POST /api/auth/login` handler (`app.js` lines 84-128).
`bcryptCompare` stands for `bcrypt.compare(password, storedHash)`.  A field
that is absent from the request body or empty is modelled as `""` (both are
falsy in the `if (!username || !password)` check). -/
def loginHandler (bcryptCompare : String → String → Bool) (jwtSecret : String)
    (now : Nat) (username password : String) : Response :=
  if username = "" ∨ password = "" then
    ⟨400, .err ⟨none, "Username and password required", none⟩⟩
  else
    match users.find? (fun u => u.username == username) with
    | none => ⟨401, .err ⟨none, "Invalid credentials", none⟩⟩
    | some user =>
      if bcryptCompare password user.password then
        ⟨200, .loginOk (jwtSign user.id user.username user.name jwtSecret now)
          user.id user.username user.name⟩
      else
        ⟨401, .err ⟨none, "Invalid credentials", none⟩⟩

/-- Embedding of `GET /api/auth/profile` (`app.js` lines 131-136): behind
`authenticateToken`, it echoes the verified token payload and performs no
external call. -/
def profileHandler (jwtSecret : String) (now : Nat) (h : AuthHeader) :
    Response × List ExtCall :=
  authenticateToken jwtSecret now h (fun u => (⟨200, .profileOk u⟩, []))

/-- The body of the `GET /api/config` handler after authentication
(`app.js` lines 140-167): resolve the connection-string secret
(`getAppConfigClient`), then fetch the three settings in sequence; any
throw lands in the catch block, a 500 with the error message in `details`.
The second component is the ordered trace of external calls performed. -/
def getAllConfigInner (env : Env) (_u : JwtPayload) : Response × List ExtCall :=
  match env.secrets connStrName with
  | .error e =>
      (⟨500, .err ⟨some false, "Failed to load configuration", some e⟩⟩,
       [.getSecret connStrName])
  | .ok _ =>
    match env.settings "PromoBanner/Text" with
    | .error e =>
        (⟨500, .err ⟨some false, "Failed to load configuration", some e⟩⟩,
         [.getSecret connStrName, .getSetting "PromoBanner/Text"])
    | .ok promoText =>
      match env.settings "PromoBanner/Color" with
      | .error e =>
          (⟨500, .err ⟨some false, "Failed to load configuration", some e⟩⟩,
           [.getSecret connStrName, .getSetting "PromoBanner/Text",
            .getSetting "PromoBanner/Color"])
      | .ok promoColor =>
        match env.settings "Feature/NewCheckout" with
        | .error e =>
            (⟨500, .err ⟨some false, "Failed to load configuration", some e⟩⟩,
             [.getSecret connStrName, .getSetting "PromoBanner/Text",
              .getSetting "PromoBanner/Color", .getSetting "Feature/NewCheckout"])
        | .ok newCheckoutEnabled =>
            (⟨200, .configOk promoText.value promoColor.value
               (newCheckoutEnabled.value == "true")⟩,
             [.getSecret connStrName, .getSetting "PromoBanner/Text",
              .getSetting "PromoBanner/Color", .getSetting "Feature/NewCheckout"])

/-- The body of the `GET /api/config/:key` handler after authentication
(`app.js` lines 172-191): resolve the secret, fetch the one caller-named
entry, return its key, value and lastModified verbatim; any throw becomes a
500 with the error message in `details`. -/
def getConfigByKeyInner (env : Env) (key : String) (_u : JwtPayload) :
    Response × List ExtCall :=
  match env.secrets connStrName with
  | .error e =>
      (⟨500, .err ⟨some false, "Failed to load configuration setting", some e⟩⟩,
       [.getSecret connStrName])
  | .ok _ =>
    match env.settings key with
    | .error e =>
        (⟨500, .err ⟨some false, "Failed to load configuration setting", some e⟩⟩,
         [.getSecret connStrName, .getSetting key])
    | .ok setting =>
        (⟨200, .keyOk setting.key setting.value setting.lastModified⟩,
         [.getSecret connStrName, .getSetting key])

/-- The full `GET /api/config` endpoint: `authenticateToken` wrapped around
`getAllConfigInner`. -/
def getConfigHandler (env : Env) (jwtSecret : String) (now : Nat)
    (h : AuthHeader) : Response × List ExtCall :=
  authenticateToken jwtSecret now h (getAllConfigInner env)

/-- The full `GET /api/config/:key` endpoint: `authenticateToken` wrapped
around `getConfigByKeyInner`. -/
def getConfigByKeyHandler (env : Env) (jwtSecret : String) (now : Nat)
    (h : AuthHeader) (key : String) : Response × List ExtCall :=
  authenticateToken jwtSecret now h (getConfigByKeyInner env key)

/-- Embedding of the legacy `GET /` handler (`app.js` lines 195-251): NOT
wrapped in `authenticateToken` — it takes no auth header at all.  It
resolves the secret and fetches the same three settings, then renders an
HTML page interpolating the banner text, the banner color and the
`value === "true"` feature check; on any throw it `res.send`s (status 200)
an error page interpolating `error.message`. -/
def rootHandler (env : Env) : Response × List ExtCall :=
  match env.secrets connStrName with
  | .error e => (⟨200, .rootErr e⟩, [.getSecret connStrName])
  | .ok _ =>
    match env.settings "PromoBanner/Text" with
    | .error e =>
        (⟨200, .rootErr e⟩, [.getSecret connStrName, .getSetting "PromoBanner/Text"])
    | .ok promoText =>
      match env.settings "PromoBanner/Color" with
      | .error e =>
          (⟨200, .rootErr e⟩,
           [.getSecret connStrName, .getSetting "PromoBanner/Text",
            .getSetting "PromoBanner/Color"])
      | .ok promoColor =>
        match env.settings "Feature/NewCheckout" with
        | .error e =>
            (⟨200, .rootErr e⟩,
             [.getSecret connStrName, .getSetting "PromoBanner/Text",
              .getSetting "PromoBanner/Color", .getSetting "Feature/NewCheckout"])
        | .ok newCheckoutEnabled =>
            (⟨200, .rootOk promoText.value promoColor.value
               (newCheckoutEnabled.value == "true")⟩,
             [.getSecret connStrName, .getSetting "PromoBanner/Text",
              .getSetting "PromoBanner/Color", .getSetting "Feature/NewCheckout"])

/-- Embedding of the catch-all error-handling middleware (`app.js` lines
254-261): always a 500 `Internal server error`, with the `details` field
spread into the body only when `NODE_ENV === 'development'`. -/
def errorMiddleware (nodeEnv : String) (message : String) : Response :=
  ⟨500, .err ⟨some false, "Internal server error",
    if nodeEnv = "development" then some message else none⟩⟩

/-- The 500 body of the login handler's own catch block (`app.js` line 126):
`{ error: 'Internal server error' }`, with no `success` and no `details`
field. -/
def loginCatchResponse : Response :=
  ⟨500, .err ⟨none, "Internal server error", none⟩⟩

/-- A concrete model of `bcrypt.compare` for witnesses: the stored fixture
hash is the hash of `password123`. -/
def bcryptModel (password hash : String) : Bool :=
  password == "password123" && hash == demoUser.password

/-- A concrete settings store populated as in the lab instructions. -/
def sampleSettings : String → Except String ConfigurationSetting := fun k =>
  if k = "PromoBanner/Text" then .ok ⟨k, "Summer Sale - 50% Off!", "2024-01-01"⟩
  else if k = "PromoBanner/Color" then .ok ⟨k, "blue", "2024-01-02"⟩
  else if k = "Feature/NewCheckout" then .ok ⟨k, "True", "2024-01-03"⟩
  else .error "404 key not found"

/-- A concrete environment for witnesses: secrets store knows only the
connection string, settings store is `sampleSettings`. -/
def sampleEnv : Env :=
  { secrets := fun n => if n = connStrName then .ok "Endpoint=https" else .error "403"
  , settings := sampleSettings }

/-- A concrete environment whose settings store is down (every lookup
throws) but whose secrets store works. -/
def settingsDownEnv : Env :=
  { secrets := fun n => if n = connStrName then .ok "Endpoint=https" else .error "403"
  , settings := fun _ => .error "settings store unreachable" }

/-- Helper: when the token check succeeds, `authenticateToken` runs the
wrapped route handler on the verified payload. -/
theorem authenticateToken_passes (jwtSecret : String) (now : Nat) (h : AuthHeader)
    (route : JwtPayload → Response × List ExtCall) (u : JwtPayload)
    (hv : verifyHeader jwtSecret now h = some u) :
    authenticateToken jwtSecret now h route = route u := by
  cases h with
  | missing => simp [verifyHeader] at hv
  | bearer t =>
      simp only [verifyHeader] at hv
      simp [authenticateToken, hv]

/-- C1 counterexample: a request to `GET /api/config` carrying a malformed
(hence not valid) token is rejected with status 403, not 401, so the claim
that every request without a valid session token fails with HTTP 401 is
false — though no external call is made. -/
theorem C1_counterexample :
    (getConfigHandler sampleEnv "your-secret-key" 0 (.bearer (.malformed "x"))).1.status = 403 ∧
    (getConfigHandler sampleEnv "your-secret-key" 0 (.bearer (.malformed "x"))).1.status ≠ 401 ∧
    (getConfigHandler sampleEnv "your-secret-key" 0 (.bearer (.malformed "x"))).2 = [] :=
  ⟨rfl, by decide, rfl⟩

/-- C1 (amended): every request to `GET /api/config`, `GET /api/config/:key`
or `GET /api/auth/profile` on which the token check fails is rejected with
HTTP 401 (when no token could be extracted) or HTTP 403 (when the token is
invalid or expired) and the trace of external calls is empty: the handler
body never runs, so no secrets-store or settings-store call is attempted. -/
theorem C1_auth_gate (env : Env) (jwtSecret : String) (now : Nat) (h : AuthHeader)
    (key : String) (hblock : verifyHeader jwtSecret now h = none) :
    ((getConfigHandler env jwtSecret now h).2 = [] ∧
      (getConfigHandler env jwtSecret now h).1.status =
        (if h = .missing then 401 else 403)) ∧
    ((getConfigByKeyHandler env jwtSecret now h key).2 = [] ∧
      (getConfigByKeyHandler env jwtSecret now h key).1.status =
        (if h = .missing then 401 else 403)) ∧
    ((profileHandler jwtSecret now h).2 = [] ∧
      (profileHandler jwtSecret now h).1.status =
        (if h = .missing then 401 else 403)) := by
  cases h with
  | missing =>
      simp [getConfigHandler, getConfigByKeyHandler, profileHandler, authenticateToken]
  | bearer t =>
      simp only [verifyHeader] at hblock
      simp [getConfigHandler, getConfigByKeyHandler, profileHandler, authenticateToken,
        hblock]

/-- C1 witness: a concrete tokenless request to `GET /api/config` yields
status 401 with no external call. -/
theorem C1_auth_gate_witness :
    (getConfigHandler sampleEnv "your-secret-key" 0 .missing).2 = [] ∧
    (getConfigHandler sampleEnv "your-secret-key" 0 .missing).1.status = 401 := by
  simpa using (C1_auth_gate sampleEnv "your-secret-key" 0 .missing "k" rfl).1

/-- C2 counterexample: the pair `("", "password123")` does not match the
fixture user, yet login answers 400 `Username and password required`
(the missing-field branch), not the 401 `InvalidCredentials` error the
claim promises for every non-matching pair. -/
theorem C2_counterexample :
    loginHandler bcryptModel "your-secret-key" 0 "" "password123" =
      ⟨400, .err ⟨none, "Username and password required", none⟩⟩ ∧
    (loginHandler bcryptModel "your-secret-key" 0 "" "password123").status ≠ 401 :=
  ⟨rfl, by decide⟩

/-- C2 (amended): for every pair with both fields non-empty that does not
match the fixture user — whether the username is unknown or the username
matches but the password comparison fails — login returns the one identical
response: HTTP 401 with body `Invalid credentials`, so an observer cannot
distinguish the two failure causes. -/
theorem C2_invalid_credentials (bc : String → String → Bool) (jwtSecret : String)
    (now : Nat) (username password : String)
    (hu : username ≠ "") (hp : password ≠ "")
    (hfail : username ≠ demoUser.username ∨ bc password demoUser.password = false) :
    loginHandler bc jwtSecret now username password =
      ⟨401, .err ⟨none, "Invalid credentials", none⟩⟩ := by
  unfold loginHandler
  rw [if_neg (by simp [hu, hp])]
  by_cases hcase : demoUser.username == username
  · have hbc : bc password demoUser.password = false := by
      rcases hfail with hne | hbc
      · have heq : demoUser.username = username := by simpa using hcase
        exact absurd heq.symm hne
      · exact hbc
    simp [users, List.find?, hcase, hbc]
  · simp [users, List.find?, hcase]

/-- C2 witness: a concrete unknown-username pair gets the 401
`Invalid credentials` response. -/
theorem C2_invalid_credentials_witness :
    loginHandler bcryptModel "your-secret-key" 0 "nobody@example.com" "pw" =
      ⟨401, .err ⟨none, "Invalid credentials", none⟩⟩ :=
  C2_invalid_credentials bcryptModel "your-secret-key" 0 "nobody@example.com" "pw"
    (by decide) (by decide) (Or.inl (by decide))

/-- C3: a token signed at time `T` with `expiresIn: '24h'` is accepted by
`jwt.verify` (against the same key) at every time `t` with
`T ≤ t < T + 86400` and rejected at every `t ≥ T + 86400`; on rejection the
`authenticateToken` middleware answers 403 `Invalid or expired token`
without running the route handler. -/
theorem C3_token_lifetime (key : String) (i : Nat) (un nm : String) (T t : Nat) :
    (T ≤ t → t < T + 86400 →
      jwtVerify (Token.valid (jwtSign i un nm key T)) key t =
        some { id := i, username := un, name := nm, iat := T, exp := T + 86400 }) ∧
    (T + 86400 ≤ t →
      jwtVerify (Token.valid (jwtSign i un nm key T)) key t = none) ∧
    (T + 86400 ≤ t → ∀ route,
      authenticateToken key t (.bearer (.valid (jwtSign i un nm key T))) route =
        (⟨403, .err ⟨none, "Invalid or expired token", none⟩⟩, [])) := by
  have hrej : T + 86400 ≤ t →
      jwtVerify (Token.valid (jwtSign i un nm key T)) key t = none := by
    intro h
    show (if key = key ∧ t < T + 86400 then _ else none) = none
    rw [if_neg]
    rintro ⟨-, hlt⟩
    omega
  refine ⟨fun _ h2 => ?_, hrej, fun h route => ?_⟩
  · show (if key = key ∧ t < T + 86400 then _ else none) = _
    rw [if_pos ⟨rfl, h2⟩]
    rfl
  · simp [authenticateToken, hrej h]

/-- C3 witness: a token issued at `T = 100` is accepted at `t = 100` and at
no later than the last live second, and rejected at exactly `t = 86500`. -/
theorem C3_token_lifetime_witness :
    jwtVerify (Token.valid (jwtSign 1 "u" "n" "k" 100)) "k" 100 =
      some { id := 1, username := "u", name := "n", iat := 100, exp := 86500 } ∧
    jwtVerify (Token.valid (jwtSign 1 "u" "n" "k" 100)) "k" 86500 = none :=
  ⟨(C3_token_lifetime "k" 1 "u" "n" 100 100).1 (by decide) (by decide),
   (C3_token_lifetime "k" 1 "u" "n" 100 86500).2.1 (by decide)⟩

/-- C4: when all three lookups succeed, the `features.newCheckout` field of
the `GET /api/config` response is the boolean `value == "true"` of the
`Feature/NewCheckout` entry, and that boolean is `true` exactly when the
stored value is the literal string `true` — any other string, including
`True`, `TRUE`, `1` and the empty string, yields `false`. -/
theorem C4_feature_flag (env : Env) (u : JwtPayload) (cs : String)
    (pt pc nc : ConfigurationSetting)
    (hs : env.secrets connStrName = .ok cs)
    (h1 : env.settings "PromoBanner/Text" = .ok pt)
    (h2 : env.settings "PromoBanner/Color" = .ok pc)
    (h3 : env.settings "Feature/NewCheckout" = .ok nc) :
    (getAllConfigInner env u).1 =
      ⟨200, .configOk pt.value pc.value (nc.value == "true")⟩ ∧
    ((nc.value == "true") = true ↔ nc.value = "true") := by
  constructor
  · unfold getAllConfigInner
    rw [hs, h1, h2, h3]
  · exact beq_iff_eq

/-- C4 witness: in an environment whose store holds `Feature/NewCheckout`
with value `True` (capitalised), the response reports the feature as
disabled. -/
theorem C4_feature_flag_witness :
    (getAllConfigInner sampleEnv { id := 1, username := "u", name := "n", iat := 0, exp := 86400 }).1 =
      ⟨200, .configOk "Summer Sale - 50% Off!" "blue" false⟩ :=
  (C4_feature_flag sampleEnv { id := 1, username := "u", name := "n", iat := 0, exp := 86400 }
    "Endpoint=https"
    ⟨"PromoBanner/Text", "Summer Sale - 50% Off!", "2024-01-01"⟩
    ⟨"PromoBanner/Color", "blue", "2024-01-02"⟩
    ⟨"Feature/NewCheckout", "True", "2024-01-03"⟩ rfl rfl rfl rfl).1

/-- C5: if any one of the three settings lookups of `GET /api/config`
fails, the handler answers HTTP 500 with the fixed error body — no partial
configuration is ever returned. -/
theorem C5_all_or_nothing (env : Env) (u : JwtPayload)
    (hfail : (∃ e, env.settings "PromoBanner/Text" = .error e) ∨
             (∃ e, env.settings "PromoBanner/Color" = .error e) ∨
             (∃ e, env.settings "Feature/NewCheckout" = .error e)) :
    ∃ e, (getAllConfigInner env u).1 =
      ⟨500, .err ⟨some false, "Failed to load configuration", some e⟩⟩ := by
  cases hsec : env.secrets connStrName with
  | error e => exact ⟨e, by unfold getAllConfigInner; rw [hsec]⟩
  | ok cs =>
    cases h1 : env.settings "PromoBanner/Text" with
    | error e => exact ⟨e, by unfold getAllConfigInner; rw [hsec, h1]⟩
    | ok pt =>
      cases h2 : env.settings "PromoBanner/Color" with
      | error e => exact ⟨e, by unfold getAllConfigInner; rw [hsec, h1, h2]⟩
      | ok pc =>
        cases h3 : env.settings "Feature/NewCheckout" with
        | error e => exact ⟨e, by unfold getAllConfigInner; rw [hsec, h1, h2, h3]⟩
        | ok nc =>
          exfalso
          rcases hfail with ⟨e, he⟩ | ⟨e, he⟩ | ⟨e, he⟩
          · rw [he] at h1; exact Except.noConfusion h1
          · rw [he] at h2; exact Except.noConfusion h2
          · rw [he] at h3; exact Except.noConfusion h3

/-- C5 witness: with the settings store down, `GET /api/config` answers 500
with the fixed error body and no configuration values. -/
theorem C5_all_or_nothing_witness :
    ∃ e, (getAllConfigInner settingsDownEnv
        { id := 1, username := "u", name := "n", iat := 0, exp := 86400 }).1 =
      ⟨500, .err ⟨some false, "Failed to load configuration", some e⟩⟩ :=
  C5_all_or_nothing settingsDownEnv
    { id := 1, username := "u", name := "n", iat := 0, exp := 86400 }
    (Or.inl ⟨"settings store unreachable", rfl⟩)

/-- C6: for every caller-supplied key, once the secret is resolved and the
lookup succeeds, `GET /api/config/:key` fetches exactly that one entry —
the trace holds a single `getSetting` call, on the caller's key — and
returns the entry's key, value and modification timestamp verbatim; no
allow-list restricts which keys may be requested. -/
theorem C6_by_key_verbatim (env : Env) (u : JwtPayload) (key cs : String)
    (s : ConfigurationSetting)
    (hs : env.secrets connStrName = .ok cs)
    (hk : env.settings key = .ok s) :
    getConfigByKeyInner env key u =
      (⟨200, .keyOk s.key s.value s.lastModified⟩,
       [.getSecret connStrName, .getSetting key]) := by
  unfold getConfigByKeyInner
  rw [hs, hk]

/-- C6 witness: fetching `PromoBanner/Color` returns that entry's key,
value and timestamp verbatim after exactly one settings call. -/
theorem C6_by_key_verbatim_witness :
    getConfigByKeyInner sampleEnv "PromoBanner/Color"
        { id := 1, username := "u", name := "n", iat := 0, exp := 86400 } =
      (⟨200, .keyOk "PromoBanner/Color" "blue" "2024-01-02"⟩,
       [.getSecret connStrName, .getSetting "PromoBanner/Color"]) :=
  C6_by_key_verbatim sampleEnv
    { id := 1, username := "u", name := "n", iat := 0, exp := 86400 }
    "PromoBanner/Color" "Endpoint=https"
    ⟨"PromoBanner/Color", "blue", "2024-01-02"⟩ rfl rfl

/-- Helper for C7: every run of the `GET /api/config` handler body begins
with the secret resolution, and nothing after it is a secrets-store call. -/
theorem getAllConfigInner_trace (env : Env) (u : JwtPayload) :
    ∃ rest, (getAllConfigInner env u).2 = .getSecret connStrName :: rest ∧
      ∀ n, ExtCall.getSecret n ∉ rest := by
  unfold getAllConfigInner
  cases env.secrets connStrName with
  | error e => exact ⟨[], rfl, by intro n; simp⟩
  | ok cs =>
    cases env.settings "PromoBanner/Text" with
    | error e => exact ⟨[.getSetting "PromoBanner/Text"], rfl, by intro n; simp⟩
    | ok pt =>
      cases env.settings "PromoBanner/Color" with
      | error e =>
          exact ⟨[.getSetting "PromoBanner/Text", .getSetting "PromoBanner/Color"],
            rfl, by intro n; simp⟩
      | ok pc =>
        cases env.settings "Feature/NewCheckout" with
        | error e =>
            exact ⟨[.getSetting "PromoBanner/Text", .getSetting "PromoBanner/Color",
              .getSetting "Feature/NewCheckout"], rfl, by intro n; simp⟩
        | ok nc =>
            exact ⟨[.getSetting "PromoBanner/Text", .getSetting "PromoBanner/Color",
              .getSetting "Feature/NewCheckout"], rfl, by intro n; simp⟩

/-- Helper for C7: every run of the `GET /api/config/:key` handler body
begins with the secret resolution, and nothing after it is a secrets-store
call. -/
theorem getConfigByKeyInner_trace (env : Env) (key : String) (u : JwtPayload) :
    ∃ rest, (getConfigByKeyInner env key u).2 = .getSecret connStrName :: rest ∧
      ∀ n, ExtCall.getSecret n ∉ rest := by
  unfold getConfigByKeyInner
  cases env.secrets connStrName with
  | error e => exact ⟨[], rfl, by intro n; simp⟩
  | ok cs =>
    cases env.settings key with
    | error e => exact ⟨[.getSetting key], rfl, by intro n; simp⟩
    | ok s => exact ⟨[.getSetting key], rfl, by intro n; simp⟩

/-- C7: on every authenticated request to `GET /api/config` or
`GET /api/config/:key`, the first external call of the request is the
resolution of the `AppConfigConnectionString` secret (from which the
settings-store client is constructed), and no later call of that request
touches the secrets store again: every settings lookup happens after the
fresh per-request secret resolution.  The handlers are pure functions of
the environment and the request, so nothing is cached across requests. -/
theorem C7_fresh_secret_per_request (env : Env) (jwtSecret : String) (now : Nat)
    (h : AuthHeader) (key : String) (u : JwtPayload)
    (hv : verifyHeader jwtSecret now h = some u) :
    (∃ rest, (getConfigHandler env jwtSecret now h).2 = .getSecret connStrName :: rest ∧
      ∀ n, ExtCall.getSecret n ∉ rest) ∧
    (∃ rest, (getConfigByKeyHandler env jwtSecret now h key).2 =
        .getSecret connStrName :: rest ∧
      ∀ n, ExtCall.getSecret n ∉ rest) := by
  constructor
  · rw [getConfigHandler, authenticateToken_passes jwtSecret now h _ u hv]
    exact getAllConfigInner_trace env u
  · rw [getConfigByKeyHandler, authenticateToken_passes jwtSecret now h _ u hv]
    exact getConfigByKeyInner_trace env key u

/-- C7 witness: a concrete authenticated request's trace starts with the
secret resolution on both endpoints. -/
theorem C7_fresh_secret_per_request_witness :
    (∃ rest, (getConfigHandler sampleEnv "your-secret-key" 0
        (.bearer (.valid (jwtSign 1 "demo@ltimindtree.com" "Demo User" "your-secret-key" 0)))).2 =
        .getSecret connStrName :: rest ∧ ∀ n, ExtCall.getSecret n ∉ rest) ∧
    (∃ rest, (getConfigByKeyHandler sampleEnv "your-secret-key" 0
        (.bearer (.valid (jwtSign 1 "demo@ltimindtree.com" "Demo User" "your-secret-key" 0)))
        "PromoBanner/Text").2 =
        .getSecret connStrName :: rest ∧ ∀ n, ExtCall.getSecret n ∉ rest) :=
  C7_fresh_secret_per_request sampleEnv "your-secret-key" 0
    (.bearer (.valid (jwtSign 1 "demo@ltimindtree.com" "Demo User" "your-secret-key" 0)))
    "PromoBanner/Text"
    { id := 1, username := "demo@ltimindtree.com", name := "Demo User", iat := 0, exp := 86400 }
    rfl

/-- C8 counterexample: the catch-all error middleware, when `NODE_ENV` is
not `development`, produces a 500 response whose body carries no `details`
field — so it is false that every 500 response includes the detailed error
text regardless of environment. -/
theorem C8_counterexample :
    (errorMiddleware "production" "boom").status = 500 ∧
    (errorMiddleware "production" "boom").body =
      .err ⟨some false, "Internal server error", none⟩ :=
  ⟨rfl, rfl⟩

/-- C8 (amended): the 500 responses of the two config endpoints always
carry the underlying error message in `details`; but the catch-all
middleware's 500 carries `details` only when `NODE_ENV` equals
`development`, and the login handler's own 500 carries no detail at all. -/
theorem C8_error_details (env : Env) (u : JwtPayload) (key nodeEnv msg : String) :
    ((getAllConfigInner env u).1.status = 500 →
      ∃ e, (getAllConfigInner env u).1.body =
        .err ⟨some false, "Failed to load configuration", some e⟩) ∧
    ((getConfigByKeyInner env key u).1.status = 500 →
      ∃ e, (getConfigByKeyInner env key u).1.body =
        .err ⟨some false, "Failed to load configuration setting", some e⟩) ∧
    (errorMiddleware nodeEnv msg =
      ⟨500, .err ⟨some false, "Internal server error",
        if nodeEnv = "development" then some msg else none⟩⟩) ∧
    loginCatchResponse = ⟨500, .err ⟨none, "Internal server error", none⟩⟩ := by
  refine ⟨?_, ?_, rfl, rfl⟩
  · unfold getAllConfigInner
    cases env.secrets connStrName with
    | error e => exact fun _ => ⟨e, rfl⟩
    | ok cs =>
      cases env.settings "PromoBanner/Text" with
      | error e => exact fun _ => ⟨e, rfl⟩
      | ok pt =>
        cases env.settings "PromoBanner/Color" with
        | error e => exact fun _ => ⟨e, rfl⟩
        | ok pc =>
          cases env.settings "Feature/NewCheckout" with
          | error e => exact fun _ => ⟨e, rfl⟩
          | ok nc => intro hc; simp at hc
  · unfold getConfigByKeyInner
    cases env.secrets connStrName with
    | error e => exact fun _ => ⟨e, rfl⟩
    | ok cs =>
      cases env.settings key with
      | error e => exact fun _ => ⟨e, rfl⟩
      | ok s => intro hc; simp at hc

/-- C8 witness: with the settings store down, the `GET /api/config` 500 does
carry a `details` field, while the production middleware 500 does not. -/
theorem C8_error_details_witness :
    (∃ e, (getAllConfigInner settingsDownEnv
        { id := 1, username := "u", name := "n", iat := 0, exp := 86400 }).1.body =
      .err ⟨some false, "Failed to load configuration", some e⟩) ∧
    errorMiddleware "production" "boom" =
      ⟨500, .err ⟨some false, "Internal server error", none⟩⟩ :=
  ⟨(C8_error_details settingsDownEnv
      { id := 1, username := "u", name := "n", iat := 0, exp := 86400 }
      "k" "production" "boom").1 rfl,
   (C8_error_details settingsDownEnv
      { id := 1, username := "u", name := "n", iat := 0, exp := 86400 }
      "k" "production" "boom").2.2.1⟩

/-- C9: the legacy `GET /` handler takes no authorization header at all —
it is not wrapped in `authenticateToken` — and on every request it fetches
the same three settings after resolving the secret, rendering the banner
text, banner color and the `value == "true"` feature state into the page:
exactly the values the authenticated `GET /api/config` endpoint returns
under the same environment. -/
theorem C9_root_unauthenticated (env : Env) (u : JwtPayload) (cs : String)
    (pt pc nc : ConfigurationSetting)
    (hs : env.secrets connStrName = .ok cs)
    (h1 : env.settings "PromoBanner/Text" = .ok pt)
    (h2 : env.settings "PromoBanner/Color" = .ok pc)
    (h3 : env.settings "Feature/NewCheckout" = .ok nc) :
    rootHandler env =
      (⟨200, .rootOk pt.value pc.value (nc.value == "true")⟩,
       [.getSecret connStrName, .getSetting "PromoBanner/Text",
        .getSetting "PromoBanner/Color", .getSetting "Feature/NewCheckout"]) ∧
    (getAllConfigInner env u).1.body =
      .configOk pt.value pc.value (nc.value == "true") := by
  constructor
  · unfold rootHandler
    rw [hs, h1, h2, h3]
  · unfold getAllConfigInner
    rw [hs, h1, h2, h3]

/-- C9 witness: concretely, the unauthenticated root page and the guarded
`GET /api/config` endpoint expose the same three configuration values. -/
theorem C9_root_unauthenticated_witness :
    rootHandler sampleEnv =
      (⟨200, .rootOk "Summer Sale - 50% Off!" "blue" false⟩,
       [.getSecret connStrName, .getSetting "PromoBanner/Text",
        .getSetting "PromoBanner/Color", .getSetting "Feature/NewCheckout"]) ∧
    (getAllConfigInner sampleEnv
        { id := 1, username := "u", name := "n", iat := 0, exp := 86400 }).1.body =
      .configOk "Summer Sale - 50% Off!" "blue" false :=
  C9_root_unauthenticated sampleEnv
    { id := 1, username := "u", name := "n", iat := 0, exp := 86400 }
    "Endpoint=https"
    ⟨"PromoBanner/Text", "Summer Sale - 50% Off!", "2024-01-01"⟩
    ⟨"PromoBanner/Color", "blue", "2024-01-02"⟩
    ⟨"Feature/NewCheckout", "True", "2024-01-03"⟩ rfl rfl rfl rfl

/-- C10: for every password accepted by the bcrypt comparison against the
fixture user's stored hash, login answers 200 with a token signed at `now`,
and verifying that token against the same signing key (at any time before
expiry) decodes to claims whose id, username and name are exactly the
fixture user's. -/
theorem C10_roundtrip (bc : String → String → Bool) (jwtSecret password : String)
    (now t : Nat) (hp : password ≠ "")
    (hbc : bc password demoUser.password = true) (ht : t < now + 86400) :
    loginHandler bc jwtSecret now demoUser.username password =
      ⟨200, .loginOk (jwtSign demoUser.id demoUser.username demoUser.name jwtSecret now)
        demoUser.id demoUser.username demoUser.name⟩ ∧
    ∃ p, jwtVerify
        (.valid (jwtSign demoUser.id demoUser.username demoUser.name jwtSecret now))
        jwtSecret t = some p ∧
      p.id = demoUser.id ∧ p.username = demoUser.username ∧ p.name = demoUser.name := by
  constructor
  · unfold loginHandler
    rw [if_neg (by simp [demoUser, hp])]
    simp [users, List.find?, hbc]
  · refine ⟨(jwtSign demoUser.id demoUser.username demoUser.name jwtSecret now).payload,
      ?_, rfl, rfl, rfl⟩
    show (if jwtSecret = jwtSecret ∧ t < now + 86400 then _ else none) = _
    rw [if_pos ⟨rfl, ht⟩]

/-- C10 witness: the demo credentials produce a token that round-trips to
the fixture identity one hour after issuance. -/
theorem C10_roundtrip_witness :
    loginHandler bcryptModel "your-secret-key" 0 demoUser.username "password123" =
      ⟨200, .loginOk (jwtSign demoUser.id demoUser.username demoUser.name "your-secret-key" 0)
        demoUser.id demoUser.username demoUser.name⟩ ∧
    ∃ p, jwtVerify
        (.valid (jwtSign demoUser.id demoUser.username demoUser.name "your-secret-key" 0))
        "your-secret-key" 3600 = some p ∧
      p.id = demoUser.id ∧ p.username = demoUser.username ∧ p.name = demoUser.name :=
  C10_roundtrip bcryptModel "your-secret-key" "password123" 0 3600
    (by decide) (by decide) (by decide)

end AppConfigDemo
